import Mathlib

/-
  Verification development for the `_Token` RPC client component
  (limesurveyrc2api/_token.py).

  The component builds ordered parameter sequences for five remote
  operations, invokes a transport collaborator (`api.query`), and
  translates known error-status strings into a raised LimeSurveyError.
  We embed Python values as a JSON-like inductive type, ordered dicts as
  association lists, and each operation as a pure function from the
  client state (session key plus transport function) and its arguments
  to the unchanged state paired with an outcome: a returned value, a
  raised LimeSurveyError carrying method name and status, or a failed
  `assert` statement.
-/

/-- A Python/JSON-like runtime value: None, bool, int, string, list, or
dict (modelled as an insertion-ordered association list, matching
`OrderedDict`). -/
inductive Value where
  | null : Value
  | bool : Bool → Value
  | int : Int → Value
  | str : String → Value
  | list : List Value → Value
  | dict : List (String × Value) → Value
deriving Repr

/-- First-match lookup in an ordered dict, as Python `d[k]` / `k in d`. -/
def dictLookup : List (String × Value) → String → Option Value
  | [], _ => none
  | (k, v) :: rest, key => if k = key then some v else dictLookup rest key

/-- Python `type(response) is dict and "status" in response`. -/
def isStatusDict : Value → Bool
  | Value.dict kvs => (dictLookup kvs "status").isSome
  | _ => false

/-- Python `type(v) is dict`. -/
def isDict : Value → Bool
  | Value.dict _ => true
  | _ => false

/-- Python `type(v) is list`. -/
def isList : Value → Bool
  | Value.list _ => true
  | _ => false

/-- Python `==` between a looked-up status value and a string literal:
true exactly when the value is that string. -/
def pyEqStr : Value → String → Bool
  | Value.str s, m => s = m
  | _, _ => false

/-- Outcome of one client call: a returned success value, a raised
`LimeSurveyError(method, status)`, or a failed `assert` statement. -/
inductive Outcome where
  | ok : Value → Outcome
  | limeSurveyError : String → Value → Outcome
  | assertionError : Outcome
deriving Repr

/-- Client state: the session key read from `self.api.session_key`, and
the transport `self.api.query(method, params)`. -/
structure LimeApi where
  session_key : Value
  query : String → List (String × Value) → Value

/-- A stub transport that returns the same response for every call. -/
def mkApi (sk : Value) (response : Value) : LimeApi :=
  ⟨sk, fun _ _ => response⟩

/- ### get_summary -/

/-- Parameter sequence of `get_summary`. -/
def get_summary_params (session_key : Value) (survey_id : Int) :
    List (String × Value) :=
  [("sSessionKey", session_key),
   ("iSurveyID", Value.int survey_id)]

/-- Response handling of `get_summary`: raise on any status-bearing
dict, otherwise return the response. -/
def get_summary_check (method : String) (response : Value) : Outcome :=
  match response with
  | Value.dict kvs =>
    match dictLookup kvs "status" with
    | some status => Outcome.limeSurveyError method status
    | none => Outcome.ok (Value.dict kvs)
  | r => Outcome.ok r

/-- `_Token.get_summary`. -/
def get_summary (api : LimeApi) (survey_id : Int) : LimeApi × Outcome :=
  let method := "get_summary"
  let params := get_summary_params api.session_key survey_id
  let response := api.query method params
  (api, get_summary_check method response)

/- ### list_participants -/

/-- Parameter sequence of `list_participants`, after
`conditions = conditions or []`. -/
def list_participants_params (session_key : Value) (survey_id : Int)
    (start : Int) (limit : Int) (ignore_token_used : Bool)
    (attributes : Value) (conditions : Option (List Value)) :
    List (String × Value) :=
  let conditions := conditions.getD []
  [("sSessionKey", session_key),
   ("iSurveyID", Value.int survey_id),
   ("iStart", Value.int start),
   ("iLimit", Value.int limit),
   ("bUnused", Value.bool ignore_token_used),
   ("aAttributes", attributes),
   ("aConditions", Value.list conditions)]

/-- Response handling of `list_participants`: identical pattern to
`get_summary`. -/
def list_participants_check (method : String) (response : Value) : Outcome :=
  match response with
  | Value.dict kvs =>
    match dictLookup kvs "status" with
    | some status => Outcome.limeSurveyError method status
    | none => Outcome.ok (Value.dict kvs)
  | r => Outcome.ok r

/-- `_Token.list_participants`. Python defaults: start=0, limit=1000,
ignore_token_used=False, attributes=False, conditions=None. -/
def list_participants (api : LimeApi) (survey_id : Int) (start : Int)
    (limit : Int) (ignore_token_used : Bool) (attributes : Value)
    (conditions : Option (List Value)) : LimeApi × Outcome :=
  let method := "list_participants"
  let params := list_participants_params api.session_key survey_id start
    limit ignore_token_used attributes conditions
  let response := api.query method params
  (api, list_participants_check method response)

/- ### add_participants -/

/-- Parameter sequence of `add_participants`. -/
def add_participants_params (session_key : Value) (survey_id : Int)
    (participant_data : Value) (create_token_key : Bool) :
    List (String × Value) :=
  [("sSessionKey", session_key),
   ("iSurveyID", Value.int survey_id),
   ("aParticipantData", participant_data),
   ("bCreateToken", Value.bool create_token_key)]

/-- The local `error_messages` list of `add_participants`. -/
def add_participants_error_messages : List String :=
  ["Error: Invalid survey ID",
   "No token table",
   "No permission"]

/-- Response handling of `add_participants`: raise when a status-bearing
dict's status equals a known message; then `assert response_type is
list`, so every dict reaching the assert fails it. -/
def add_participants_check (method : String) (response : Value) : Outcome :=
  match response with
  | Value.dict kvs =>
    match dictLookup kvs "status" with
    | some status =>
      if add_participants_error_messages.any (fun m => pyEqStr status m) then
        Outcome.limeSurveyError method status
      else Outcome.assertionError
    | none => Outcome.assertionError
  | Value.list l => Outcome.ok (Value.list l)
  | _ => Outcome.assertionError

/-- `_Token.add_participants`. Python default: create_token_key=True. -/
def add_participants (api : LimeApi) (survey_id : Int)
    (participant_data : Value) (create_token_key : Bool) :
    LimeApi × Outcome :=
  let method := "add_participants"
  let params := add_participants_params api.session_key survey_id
    participant_data create_token_key
  let response := api.query method params
  (api, add_participants_check method response)

/- ### delete_participants -/

/-- Parameter sequence of `delete_participants`. -/
def delete_participants_params (session_key : Value) (survey_id : Int)
    (tokens : Value) : List (String × Value) :=
  [("sSessionKey", session_key),
   ("iSurveyID", Value.int survey_id),
   ("aTokenIDs", tokens)]

/-- The local `error_messages` list of `delete_participants`. -/
def delete_participants_error_messages : List String :=
  ["Error: Invalid survey ID",
   "Error: No token table",
   "No permission",
   "Invalid Session Key"]

/-- Response handling of `delete_participants`: raise when a
status-bearing dict's status equals a known message; then `assert
response_type is dict`, which a dict with an unrecognised status
passes, so that dict is returned as the success result. -/
def delete_participants_check (method : String) (response : Value) : Outcome :=
  match response with
  | Value.dict kvs =>
    match dictLookup kvs "status" with
    | some status =>
      if delete_participants_error_messages.any (fun m => pyEqStr status m) then
        Outcome.limeSurveyError method status
      else Outcome.ok (Value.dict kvs)
    | none => Outcome.ok (Value.dict kvs)
  | _ => Outcome.assertionError

/-- `_Token.delete_participants`. -/
def delete_participants (api : LimeApi) (survey_id : Int)
    (tokens : Value) : LimeApi × Outcome :=
  let method := "delete_participants"
  let params := delete_participants_params api.session_key survey_id tokens
  let response := api.query method params
  (api, delete_participants_check method response)

/- ### get_participant_properties -/

/-- Parameter sequence of `get_participant_properties`, with the nested
filter mapping `{"tid": token_id}`. -/
def get_participant_properties_params (session_key : Value)
    (survey_id : Int) (token_id : Int) : List (String × Value) :=
  [("sSessionKey", session_key),
   ("iSurveyID", Value.int survey_id),
   ("aTokenQueryProperties", Value.dict [("tid", Value.int token_id)])]

/-- The local `error_messages` list of `get_participant_properties`. -/
def get_participant_properties_error_messages : List String :=
  ["Error: Invalid survey ID",
   "Error: No token table",
   "Error: Invalid tokenid",
   "No permission",
   "Invalid Session Key"]

/-- Response handling of `get_participant_properties`: like
`delete_participants`, with its own error-message list. -/
def get_participant_properties_check (method : String) (response : Value) :
    Outcome :=
  match response with
  | Value.dict kvs =>
    match dictLookup kvs "status" with
    | some status =>
      if get_participant_properties_error_messages.any
          (fun m => pyEqStr status m) then
        Outcome.limeSurveyError method status
      else Outcome.ok (Value.dict kvs)
    | none => Outcome.ok (Value.dict kvs)
  | _ => Outcome.assertionError

/-- `_Token.get_participant_properties`. -/
def get_participant_properties (api : LimeApi) (survey_id : Int)
    (token_id : Int) : LimeApi × Outcome :=
  let method := "get_participant_properties"
  let params := get_participant_properties_params api.session_key survey_id
    token_id
  let response := api.query method params
  (api, get_participant_properties_check method response)

/-- Claim C1: for `get_summary` and `list_participants` (the latter at
its default arguments), every transport response that is a dict
containing a "status" key makes the call raise LimeSurveyError carrying
the method name and exactly that status value, whatever it is. -/
theorem get_summary_list_participants_raise_on_status
    (sk : Value) (sid : Int) (kvs : List (String × Value)) (status : Value)
    (h : dictLookup kvs "status" = some status) :
    (get_summary (mkApi sk (Value.dict kvs)) sid).2
      = Outcome.limeSurveyError "get_summary" status
    ∧ (list_participants (mkApi sk (Value.dict kvs)) sid 0 1000 false
        (Value.bool false) none).2
      = Outcome.limeSurveyError "list_participants" status := by
  constructor
  · simp [get_summary, get_summary_check, mkApi, h]
  · simp [list_participants, list_participants_check, mkApi, h]

/-- Claim C1, witness: a concrete status-bearing dict response makes
both operations raise with that status. -/
theorem get_summary_list_participants_raise_on_status_witness :
    (get_summary (mkApi (Value.str "sk")
      (Value.dict [("status", Value.str "Any status at all")])) 7).2
      = Outcome.limeSurveyError "get_summary" (Value.str "Any status at all")
    ∧ (list_participants (mkApi (Value.str "sk")
        (Value.dict [("status", Value.str "Any status at all")])) 7 0 1000
        false (Value.bool false) none).2
      = Outcome.limeSurveyError "list_participants"
          (Value.str "Any status at all") :=
  get_summary_list_participants_raise_on_status (Value.str "sk") 7
    [("status", Value.str "Any status at all")]
    (Value.str "Any status at all") rfl

/-- Claim C6: `list_participants` at its Python default arguments
builds, after the session key and survey id, the parameters iStart=0,
iLimit=1000, bUnused=false, aAttributes=false, aConditions=[] in exactly
that insertion order, and sends exactly that sequence to the transport. -/
theorem list_participants_default_params_order (sk : Value) (sid : Int)
    (q : String → List (String × Value) → Value) :
    list_participants_params sk sid 0 1000 false (Value.bool false) none
      = [("sSessionKey", sk),
         ("iSurveyID", Value.int sid),
         ("iStart", Value.int 0),
         ("iLimit", Value.int 1000),
         ("bUnused", Value.bool false),
         ("aAttributes", Value.bool false),
         ("aConditions", Value.list [])]
    ∧ (list_participants ⟨sk, q⟩ sid 0 1000 false (Value.bool false) none).2
      = list_participants_check "list_participants"
          (q "list_participants"
            (list_participants_params sk sid 0 1000 false
              (Value.bool false) none)) :=
  ⟨rfl, rfl⟩

/-- Claim C7: `get_participant_properties` sends, as its third ordered
parameter aTokenQueryProperties, the nested filter mapping
`{"tid": token_id}`, for every survey id and token id. -/
theorem get_participant_properties_token_query (sk : Value)
    (sid tid : Int) (q : String → List (String × Value) → Value) :
    get_participant_properties_params sk sid tid
      = [("sSessionKey", sk),
         ("iSurveyID", Value.int sid),
         ("aTokenQueryProperties", Value.dict [("tid", Value.int tid)])]
    ∧ (get_participant_properties_params sk sid tid).get? 2
      = some ("aTokenQueryProperties", Value.dict [("tid", Value.int tid)])
    ∧ (get_participant_properties ⟨sk, q⟩ sid tid).2
      = get_participant_properties_check "get_participant_properties"
          (q "get_participant_properties"
            (get_participant_properties_params sk sid tid)) :=
  ⟨rfl, rfl, rfl⟩

/-- Claim C9: no operation mutates the client state: the pair returned
by every operation carries the api (session key and transport) identical
to the one passed in, whatever outcome the call has. -/
theorem no_session_mutation (api : LimeApi) (sid st lim tid : Int)
    (ig ctk : Bool) (att pdata toks : Value)
    (conds : Option (List Value)) :
    (get_summary api sid).1 = api
    ∧ (list_participants api sid st lim ig att conds).1 = api
    ∧ (add_participants api sid pdata ctk).1 = api
    ∧ (delete_participants api sid toks).1 = api
    ∧ (get_participant_properties api sid tid).1 = api :=
  ⟨rfl, rfl, rfl, rfl, rfl⟩

/-- Claim C2: `add_participants` raises LimeSurveyError carrying the
status exactly when the response is a dict whose "status" value is one
of its three listed error strings; a dict carrying any other status
raises no domain error and fails the `assert response_type is list`
instead; and no response that is not a status-bearing dict ever raises. -/
theorem add_participants_raise_iff_known_status (sk pdata : Value)
    (sid : Int) (ctk : Bool) :
    (∀ kvs status, dictLookup kvs "status" = some status →
      ((add_participants (mkApi sk (Value.dict kvs)) sid pdata ctk).2
        = Outcome.limeSurveyError "add_participants" status
       ↔ add_participants_error_messages.any
           (fun m => pyEqStr status m) = true))
    ∧ (∀ kvs status, dictLookup kvs "status" = some status →
        add_participants_error_messages.any
          (fun m => pyEqStr status m) = false →
        (add_participants (mkApi sk (Value.dict kvs)) sid pdata ctk).2
          = Outcome.assertionError)
    ∧ (∀ r, isStatusDict r = false →
        ∀ m s, (add_participants (mkApi sk r) sid pdata ctk).2
          ≠ Outcome.limeSurveyError m s) := by
  refine ⟨?_, ?_, ?_⟩
  · intro kvs status h
    cases hb : add_participants_error_messages.any
        (fun m => pyEqStr status m) <;>
      simp [add_participants, add_participants_check, mkApi, h, hb]
  · intro kvs status h hb
    simp [add_participants, add_participants_check, mkApi, h, hb]
  · intro r hr m s
    cases r with
    | dict kvs =>
      cases hl : dictLookup kvs "status" with
      | some status => simp [isStatusDict, hl] at hr
      | none => simp [add_participants, add_participants_check, mkApi, hl]
    | _ => simp [add_participants, add_participants_check, mkApi]

/-- Claim C2, witness: a recognised status raises with that status, an
unrecognised status-bearing dict ends in the failed list assertion. -/
theorem add_participants_raise_iff_known_status_witness :
    (add_participants (mkApi (Value.str "sk")
      (Value.dict [("status", Value.str "No permission")])) 1
      (Value.list []) true).2
      = Outcome.limeSurveyError "add_participants" (Value.str "No permission")
    ∧ (add_participants (mkApi (Value.str "sk")
        (Value.dict [("status", Value.str "Some new status")])) 1
        (Value.list []) true).2
      = Outcome.assertionError :=
  ⟨((add_participants_raise_iff_known_status (Value.str "sk")
      (Value.list []) 1 true).1
      [("status", Value.str "No permission")]
      (Value.str "No permission") rfl).mpr (by decide),
   (add_participants_raise_iff_known_status (Value.str "sk")
      (Value.list []) 1 true).2.1
      [("status", Value.str "Some new status")]
      (Value.str "Some new status") rfl (by decide)⟩

/-- Claim C4: `delete_participants` raises LimeSurveyError carrying the
status exactly when the response is a dict whose "status" value is one
of its four listed error strings; no other response raises. -/
theorem delete_participants_raise_iff_known_status (sk toks : Value)
    (sid : Int) :
    (∀ kvs status, dictLookup kvs "status" = some status →
      ((delete_participants (mkApi sk (Value.dict kvs)) sid toks).2
        = Outcome.limeSurveyError "delete_participants" status
       ↔ delete_participants_error_messages.any
           (fun m => pyEqStr status m) = true))
    ∧ (∀ r, isStatusDict r = false →
        ∀ m s, (delete_participants (mkApi sk r) sid toks).2
          ≠ Outcome.limeSurveyError m s) := by
  refine ⟨?_, ?_⟩
  · intro kvs status h
    cases hb : delete_participants_error_messages.any
        (fun m => pyEqStr status m) <;>
      simp [delete_participants, delete_participants_check, mkApi, h, hb]
  · intro r hr m s
    cases r with
    | dict kvs =>
      cases hl : dictLookup kvs "status" with
      | some status => simp [isStatusDict, hl] at hr
      | none =>
        simp [delete_participants, delete_participants_check, mkApi, hl]
    | _ => simp [delete_participants, delete_participants_check, mkApi]

/-- Claim C4, witness: the "Invalid Session Key" status raises, and a
plain list response never raises. -/
theorem delete_participants_raise_iff_known_status_witness :
    (delete_participants (mkApi (Value.str "sk")
      (Value.dict [("status", Value.str "Invalid Session Key")])) 2
      (Value.list [Value.int 1])).2
      = Outcome.limeSurveyError "delete_participants"
          (Value.str "Invalid Session Key")
    ∧ (delete_participants (mkApi (Value.str "sk") (Value.list [])) 2
        (Value.list [Value.int 1])).2
      ≠ Outcome.limeSurveyError "delete_participants"
          (Value.str "Invalid Session Key") :=
  ⟨((delete_participants_raise_iff_known_status (Value.str "sk")
      (Value.list [Value.int 1]) 2).1
      [("status", Value.str "Invalid Session Key")]
      (Value.str "Invalid Session Key") rfl).mpr (by decide),
   (delete_participants_raise_iff_known_status (Value.str "sk")
      (Value.list [Value.int 1]) 2).2 (Value.list []) rfl
      "delete_participants" (Value.str "Invalid Session Key")⟩

/-- Claim C5: `get_participant_properties` raises LimeSurveyError
carrying the status exactly when the response is a dict whose "status"
value is one of its five listed error strings; no other response
raises. -/
theorem get_participant_properties_raise_iff_known_status (sk : Value)
    (sid tid : Int) :
    (∀ kvs status, dictLookup kvs "status" = some status →
      ((get_participant_properties (mkApi sk (Value.dict kvs)) sid tid).2
        = Outcome.limeSurveyError "get_participant_properties" status
       ↔ get_participant_properties_error_messages.any
           (fun m => pyEqStr status m) = true))
    ∧ (∀ r, isStatusDict r = false →
        ∀ m s, (get_participant_properties (mkApi sk r) sid tid).2
          ≠ Outcome.limeSurveyError m s) := by
  refine ⟨?_, ?_⟩
  · intro kvs status h
    cases hb : get_participant_properties_error_messages.any
        (fun m => pyEqStr status m) <;>
      simp [get_participant_properties, get_participant_properties_check,
        mkApi, h, hb]
  · intro r hr m s
    cases r with
    | dict kvs =>
      cases hl : dictLookup kvs "status" with
      | some status => simp [isStatusDict, hl] at hr
      | none =>
        simp [get_participant_properties, get_participant_properties_check,
          mkApi, hl]
    | _ =>
      simp [get_participant_properties, get_participant_properties_check,
        mkApi]

/-- Claim C5, witness: the "Error: Invalid tokenid" status raises, and a
dict without "status" never raises. -/
theorem get_participant_properties_raise_iff_known_status_witness :
    (get_participant_properties (mkApi (Value.str "sk")
      (Value.dict [("status", Value.str "Error: Invalid tokenid")])) 2 42).2
      = Outcome.limeSurveyError "get_participant_properties"
          (Value.str "Error: Invalid tokenid")
    ∧ (get_participant_properties (mkApi (Value.str "sk")
        (Value.dict [("email", Value.str "a@b.c")])) 2 42).2
      ≠ Outcome.limeSurveyError "get_participant_properties"
          (Value.str "Error: Invalid tokenid") :=
  ⟨((get_participant_properties_raise_iff_known_status
      (Value.str "sk") 2 42).1
      [("status", Value.str "Error: Invalid tokenid")]
      (Value.str "Error: Invalid tokenid") rfl).mpr (by decide),
   (get_participant_properties_raise_iff_known_status
      (Value.str "sk") 2 42).2
      (Value.dict [("email", Value.str "a@b.c")]) (by decide)
      "get_participant_properties" (Value.str "Error: Invalid tokenid")⟩

/-- Claim C3, counterexample: `delete_participants`, fed a dict whose
"status" value is not in its error list, returns that very
status-bearing mapping as its success result, so the response shape does
not discriminate success payloads from error envelopes. -/
theorem delete_participants_returns_status_mapping :
    (delete_participants (mkApi (Value.str "sk")
      (Value.dict [("status", Value.str "Error: not in the list")])) 1
      (Value.list [])).2
      = Outcome.ok (Value.dict [("status", Value.str "Error: not in the list")])
    ∧ isStatusDict
        (Value.dict [("status", Value.str "Error: not in the list")])
      = true :=
  ⟨rfl, rfl⟩

/-- Claim C3, amended: `get_summary`, `list_participants` and
`add_participants` never return a status-bearing mapping as their
success result; `delete_participants` and `get_participant_properties`,
however, return the status-bearing mapping unchanged as success whenever
its status is not in their known-error list, so for those two the shape
alone does not discriminate the cases. -/
theorem status_mapping_discrimination_amended (sk pdata toks : Value)
    (sid tid : Int) (ctk : Bool) :
    (∀ r v, (get_summary (mkApi sk r) sid).2 = Outcome.ok v →
      isStatusDict v = false)
    ∧ (∀ r v, (list_participants (mkApi sk r) sid 0 1000 false
        (Value.bool false) none).2 = Outcome.ok v →
        isStatusDict v = false)
    ∧ (∀ r v, (add_participants (mkApi sk r) sid pdata ctk).2
        = Outcome.ok v → isStatusDict v = false)
    ∧ (∀ kvs status, dictLookup kvs "status" = some status →
        delete_participants_error_messages.any
          (fun m => pyEqStr status m) = false →
        (delete_participants (mkApi sk (Value.dict kvs)) sid toks).2
          = Outcome.ok (Value.dict kvs))
    ∧ (∀ kvs status, dictLookup kvs "status" = some status →
        get_participant_properties_error_messages.any
          (fun m => pyEqStr status m) = false →
        (get_participant_properties (mkApi sk (Value.dict kvs)) sid tid).2
          = Outcome.ok (Value.dict kvs)) := by
  refine ⟨?_, ?_, ?_, ?_, ?_⟩
  · intro r v h
    cases r with
    | dict kvs =>
      cases hl : dictLookup kvs "status" with
      | some status => simp [get_summary, get_summary_check, mkApi, hl] at h
      | none =>
        simp [get_summary, get_summary_check, mkApi, hl] at h
        subst h
        simp [isStatusDict, hl]
    | _ =>
      simp [get_summary, get_summary_check, mkApi] at h
      subst h
      simp [isStatusDict]
  · intro r v h
    cases r with
    | dict kvs =>
      cases hl : dictLookup kvs "status" with
      | some status =>
        simp [list_participants, list_participants_check, mkApi, hl] at h
      | none =>
        simp [list_participants, list_participants_check, mkApi, hl] at h
        subst h
        simp [isStatusDict, hl]
    | _ =>
      simp [list_participants, list_participants_check, mkApi] at h
      subst h
      simp [isStatusDict]
  · intro r v h
    cases r with
    | dict kvs =>
      cases hl : dictLookup kvs "status" with
      | some status =>
        cases hb : add_participants_error_messages.any
            (fun m => pyEqStr status m) <;>
          simp [add_participants, add_participants_check, mkApi, hl, hb] at h
      | none =>
        simp [add_participants, add_participants_check, mkApi, hl] at h
    | list l =>
      simp [add_participants, add_participants_check, mkApi] at h
      subst h
      simp [isStatusDict]
    | _ => simp [add_participants, add_participants_check, mkApi] at h
  · intro kvs status h hb
    simp [delete_participants, delete_participants_check, mkApi, h, hb]
  · intro kvs status h hb
    simp [get_participant_properties, get_participant_properties_check,
      mkApi, h, hb]

/-- Claim C3, witness: the amended statement at concrete inputs — a
plain summary mapping never carries "status", and an unrecognised
status mapping is returned as success by `get_participant_properties`. -/
theorem status_mapping_discrimination_amended_witness :
    isStatusDict (Value.dict [("token_count", Value.str "5")]) = false
    ∧ (get_participant_properties (mkApi (Value.str "sk")
        (Value.dict [("status", Value.str "Brand new status")])) 3 4).2
      = Outcome.ok (Value.dict [("status", Value.str "Brand new status")]) :=
  ⟨(status_mapping_discrimination_amended (Value.str "sk")
      (Value.list []) (Value.list []) 3 4 true).1
      (Value.dict [("token_count", Value.str "5")])
      (Value.dict [("token_count", Value.str "5")]) rfl,
   (status_mapping_discrimination_amended (Value.str "sk")
      (Value.list []) (Value.list []) 3 4 true).2.2.2.2
      [("status", Value.str "Brand new status")]
      (Value.str "Brand new status") rfl (by decide)⟩

/-- Claim C8: identity pass-through — every response matching an
operation's expected success shape (mapping for `get_summary`,
`delete_participants`, `get_participant_properties`; sequence for
`list_participants`, `add_participants`) and carrying no "status" key is
returned structurally identical by the operation. -/
theorem success_shape_identity_passthrough (sk pdata toks : Value)
    (sid tid : Int) (ctk : Bool) (kvs : List (String × Value))
    (l : List Value) (hs : dictLookup kvs "status" = none) :
    (get_summary (mkApi sk (Value.dict kvs)) sid).2
      = Outcome.ok (Value.dict kvs)
    ∧ (list_participants (mkApi sk (Value.list l)) sid 0 1000 false
        (Value.bool false) none).2 = Outcome.ok (Value.list l)
    ∧ (add_participants (mkApi sk (Value.list l)) sid pdata ctk).2
      = Outcome.ok (Value.list l)
    ∧ (delete_participants (mkApi sk (Value.dict kvs)) sid toks).2
      = Outcome.ok (Value.dict kvs)
    ∧ (get_participant_properties (mkApi sk (Value.dict kvs)) sid tid).2
      = Outcome.ok (Value.dict kvs) := by
  refine ⟨?_, rfl, rfl, ?_, ?_⟩
  · simp [get_summary, get_summary_check, mkApi, hs]
  · simp [delete_participants, delete_participants_check, mkApi, hs]
  · simp [get_participant_properties, get_participant_properties_check,
      mkApi, hs]

/-- Claim C8, witness: concrete status-free payloads of the expected
shapes pass through all five operations unchanged. -/
theorem success_shape_identity_passthrough_witness :
    (get_summary (mkApi (Value.str "sk")
      (Value.dict [("token_count", Value.str "5")])) 1).2
      = Outcome.ok (Value.dict [("token_count", Value.str "5")])
    ∧ (list_participants (mkApi (Value.str "sk")
        (Value.list [Value.dict [("tid", Value.int 1)]])) 1 0 1000 false
        (Value.bool false) none).2
      = Outcome.ok (Value.list [Value.dict [("tid", Value.int 1)]])
    ∧ (add_participants (mkApi (Value.str "sk")
        (Value.list [Value.dict [("tid", Value.int 1)]])) 1
        (Value.list []) true).2
      = Outcome.ok (Value.list [Value.dict [("tid", Value.int 1)]])
    ∧ (delete_participants (mkApi (Value.str "sk")
        (Value.dict [("token_count", Value.str "5")])) 1
        (Value.list [])).2
      = Outcome.ok (Value.dict [("token_count", Value.str "5")])
    ∧ (get_participant_properties (mkApi (Value.str "sk")
        (Value.dict [("token_count", Value.str "5")])) 1 2).2
      = Outcome.ok (Value.dict [("token_count", Value.str "5")]) :=
  success_shape_identity_passthrough (Value.str "sk") (Value.list [])
    (Value.list []) 1 2 true [("token_count", Value.str "5")]
    [Value.dict [("tid", Value.int 1)]] rfl

/-- Claim C10: `get_summary` and `list_participants` perform no
success-shape validation: every response that is not a status-bearing
dict — primitive, sequence, or mapping without "status" — is returned
unchanged with no error and no assertion; by contrast the other three
operations fail their shape assertion on any response that is neither a
dict nor a list. -/
theorem summary_list_no_shape_validation (sk pdata toks : Value)
    (sid tid : Int) (ctk : Bool) (r : Value)
    (h : isStatusDict r = false) :
    (get_summary (mkApi sk r) sid).2 = Outcome.ok r
    ∧ (list_participants (mkApi sk r) sid 0 1000 false
        (Value.bool false) none).2 = Outcome.ok r
    ∧ (isDict r = false → isList r = false →
        (add_participants (mkApi sk r) sid pdata ctk).2
          = Outcome.assertionError
        ∧ (delete_participants (mkApi sk r) sid toks).2
          = Outcome.assertionError
        ∧ (get_participant_properties (mkApi sk r) sid tid).2
          = Outcome.assertionError) := by
  cases r with
  | dict kvs =>
    cases hl : dictLookup kvs "status" with
    | some status => simp [isStatusDict, hl] at h
    | none =>
      refine ⟨?_, ?_, ?_⟩
      · simp [get_summary, get_summary_check, mkApi, hl]
      · simp [list_participants, list_participants_check, mkApi, hl]
      · intro hd
        simp [isDict] at hd
  | list l =>
    refine ⟨rfl, rfl, ?_⟩
    intro _ hl
    simp [isList] at hl
  | _ =>
    exact ⟨rfl, rfl, fun _ _ => ⟨rfl, rfl, rfl⟩⟩

/-- Claim C10, witness: a primitive integer response passes through the
two unvalidated operations and fails the shape assertion of the other
three. -/
theorem summary_list_no_shape_validation_witness :
    (get_summary (mkApi (Value.str "sk") (Value.int 3)) 1).2
      = Outcome.ok (Value.int 3)
    ∧ (list_participants (mkApi (Value.str "sk") (Value.int 3)) 1 0 1000
        false (Value.bool false) none).2 = Outcome.ok (Value.int 3)
    ∧ ((add_participants (mkApi (Value.str "sk") (Value.int 3)) 1
          (Value.list []) true).2 = Outcome.assertionError
       ∧ (delete_participants (mkApi (Value.str "sk") (Value.int 3)) 1
           (Value.list [])).2 = Outcome.assertionError
       ∧ (get_participant_properties (mkApi (Value.str "sk")
           (Value.int 3)) 1 2).2 = Outcome.assertionError) :=
  have h := summary_list_no_shape_validation (Value.str "sk")
    (Value.list []) (Value.list []) 1 2 true (Value.int 3) rfl
  ⟨h.1, h.2.1, h.2.2 rfl rfl⟩
